import Mathlib

/-!
# Verification of the create-vargas-npm task pipeline

A shallow embedding of the scaffolding CLI's task-runner core and of the
auxiliary helpers the specification talks about, together with proofs of
the specification's testable properties.

The authoritative variant embedded here is the most advanced one in the
repository (the file with `runTask`, single-task dispatch, and the
"skipped due to upstream failure" announcements).  Conventions of the
embedding:

* A JavaScript task object `{ title, task, skip? }` is modelled by
  `Task`.  The thunks are opaque effectful closures in the source; for
  one run of the pipeline each is called at most once, so a thunk is
  modelled by the value it produces at that call: `skip : Option Bool`
  is the optional skip predicate together with the boolean it returns
  (`none` when the task object has no `skip` field, mirroring
  `task.skip?.()`), and `action : Except String Unit` is the outcome of
  invoking the action — `Except.ok ()` when the thunk returns/resolves,
  `Except.error m` when it throws or rejects with an error whose
  `.message` is `m`.
* Every observable event (each `console.log`/`console.error`, each
  evaluation of a `skip` predicate, each invocation of an action) is
  recorded in order in a `List Effect` trace, so that "X's action is
  never invoked" and "X's skip predicate is never evaluated" are
  statements about the trace.
* Network/process responses consumed by the polling helpers are
  supplied as an oracle: the list of successive status strings the
  remote endpoint would return.
-/

namespace Fuego

/-- One observable event of a run, in program order. -/
inductive Effect where
  /-- `console.log("Running", title, "...")` at the top of `runTask`. -/
  | running (title : String)
  /-- the runner evaluated `task.skip?.()` and it returned `value`. -/
  | skipEval (title : String) (value : Bool)
  /-- `console.log("Skipped", title)`. -/
  | skippedLog (title : String)
  /-- the runner invoked the task's action thunk. -/
  | invoked (title : String)
  /-- `console.log("Successfully Ran", title)`. -/
  | succeededLog (title : String)
  /-- `console.log("Failed to run", title)`. -/
  | failedLog (title : String)
  /-- `console.log("Skipped task", title, "due to failure from previous task")`. -/
  | downstreamSkipLog (title : String)
  /-- `console.log("Done!")` after a successful single-task run. -/
  | doneLog
  /-- `console.error(message)` — the failure message surfaced to the user. -/
  | errorLog (message : Option String)
  /-- `console.error("Failed to find task of name " ++ title)`. -/
  | notFoundLog (title : String)
  /-- `console.log(projectName ++ " is Ready!")` after a fully successful run. -/
  | readyLog (name : String)
  deriving DecidableEq, Repr

/-- A task of the pipeline: `{ title: string; task: () => void | Promise<void>;
skip?: () => boolean }`, with the two thunks replaced by the value each
produces when called during the run under consideration. -/
structure Task where
  title : String
  action : Except String Unit
  skip : Option Bool := none
  deriving Repr

/-- The structured per-task result `{ success: boolean; message?: string }`
that `runTask` resolves with. -/
structure RunResult where
  success : Bool
  message : Option String := none
  deriving DecidableEq, Repr

/-- `runTask`: log "Running"; if `task.skip?.()` returns true, log "Skipped"
and resolve `{ success: true }`; otherwise invoke the action, resolving
`{ success: true }` on completion and `{ success: false, message: e.message }`
on a throw/rejection — the error never escapes `runTask`. -/
def runTask (t : Task) : List Effect × RunResult :=
  let tail : List Effect × RunResult :=
    match t.action with
    | Except.ok _ =>
        ([Effect.invoked t.title, Effect.succeededLog t.title],
         { success := true })
    | Except.error m =>
        ([Effect.invoked t.title, Effect.failedLog t.title],
         { success := false, message := some m })
  match t.skip with
  | some true =>
      ([Effect.running t.title, Effect.skipEval t.title true,
        Effect.skippedLog t.title],
       { success := true })
  | some false =>
      (Effect.running t.title :: Effect.skipEval t.title false :: tail.1,
       tail.2)
  | none =>
      (Effect.running t.title :: tail.1, tail.2)

/-- Outcome of the `run` promise: it resolves (with `undefined`), or rejects
with the failing task's message. -/
inductive RunOutcome where
  | resolved
  | rejected (message : Option String)
  deriving DecidableEq, Repr

/-- `run`: iterate the task list in order through `runTask`; on the first
unsuccessful result, announce every remaining task as skipped due to the
failure and reject with the failing task's message.  (The source computes
the remaining tasks as `tasks.slice(tasks.indexOf(task) + 1)`; the task
objects of the source list are reference-distinct, so `indexOf` finds the
failing element's own position and the slice is exactly the structural
rest used here.) -/
def run : List Task → List Effect × RunOutcome
  | [] => ([], RunOutcome.resolved)
  | t :: rest =>
      let p := runTask t
      if p.2.success then
        (p.1 ++ (run rest).1, (run rest).2)
      else
        (p.1 ++ rest.map (fun u => Effect.downstreamSkipLog u.title),
         RunOutcome.rejected p.2.message)

/-- Outcome of the single-task (`--task=<title>`) dispatch branch. -/
inductive SingleOutcome where
  | completed (r : RunResult)
  | notFound
  deriving DecidableEq, Repr

/-- The `flags.task` dispatch: find the task whose title equals the flag;
if found, `runTask` it and log "Done!" or the failure message; otherwise
log the "Failed to find task" error without touching any task. -/
def singleTaskMode (tasks : List Task) (title : String) :
    List Effect × SingleOutcome :=
  match tasks.find? (fun t => t.title == title) with
  | some t =>
      let p := runTask t
      (p.1 ++ [if p.2.success then Effect.doneLog
               else Effect.errorLog p.2.message],
       SingleOutcome.completed p.2)
  | none => ([Effect.notFoundLog title], SingleOutcome.notFound)

/-- The full-run branch of the top level:
`run().then(() => console.log(...Ready!)).catch((e) => console.error(e))`.
The second component is the process exit code: the rejection is handled by
the `.catch` handler and no explicit exit code is ever set anywhere in the
program, so the process exits with Node's default code 0 on both paths. -/
def fullRunMain (name : String) (tasks : List Task) : List Effect × Nat :=
  match run tasks with
  | (effs, RunOutcome.resolved) => (effs ++ [Effect.readyLog name], 0)
  | (effs, RunOutcome.rejected m) => (effs ++ [Effect.errorLog m], 0)

/-- Whether an effect is an invocation of some task's action. -/
def Effect.isInvoke : Effect → Bool
  | Effect.invoked _ => true
  | _ => false

/-- Whether an effect is an evaluation of some task's skip predicate. -/
def Effect.isSkipEval : Effect → Bool
  | Effect.skipEval _ _ => true
  | _ => false

/-- Trace of a list of tasks all processed by `runTask`, in order. -/
def runEffs (ts : List Task) : List Effect :=
  (ts.map (fun u => (runTask u).1)).flatten

theorem runTask_success_of_ok (t : Task) (hs : t.skip ≠ some true)
    (ha : t.action = Except.ok ()) : (runTask t).2 = { success := true } := by
  cases h : t.skip with
  | none => simp [runTask, h, ha]
  | some b =>
    cases b with
    | true => exact absurd h hs
    | false => simp [runTask, h, ha]

theorem runTask_success_of_skip (t : Task) (hs : t.skip = some true) :
    (runTask t).2 = { success := true } := by
  simp [runTask, hs]

theorem runTask_fail (t : Task) (m : String) (hs : t.skip ≠ some true)
    (ha : t.action = Except.error m) :
    (runTask t).2 = { success := false, message := some m } := by
  cases h : t.skip with
  | none => simp [runTask, h, ha]
  | some b =>
    cases b with
    | true => exact absurd h hs
    | false => simp [runTask, h, ha]

theorem run_append_ok (pre rest : List Task)
    (h : ∀ u ∈ pre, (runTask u).2.success = true) :
    run (pre ++ rest) = (runEffs pre ++ (run rest).1, (run rest).2) := by
  induction pre with
  | nil => simp [runEffs]
  | cons t ts ih =>
    have ht : (runTask t).2.success = true := h t (by simp)
    have hts : ∀ u ∈ ts, (runTask u).2.success = true :=
      fun u hu => h u (by simp [hu])
    simp only [List.cons_append, run, ht, if_true, List.append_eq, ih hts,
      runEffs, List.map_cons, List.flatten_cons, List.append_assoc]

theorem run_cons_fail (t : Task) (rest : List Task)
    (h : (runTask t).2.success = false) :
    run (t :: rest) =
      ((runTask t).1 ++ rest.map (fun u => Effect.downstreamSkipLog u.title),
       RunOutcome.rejected (runTask t).2.message) := by
  simp [run, h]

/-! ## Long-poll helpers

Each helper repeatedly queries a status endpoint, sleeping 30000 ms between
queries, until the status is terminal.  The endpoint is modelled by the list
of successive status strings it returns; the helper consumes one entry per
check.  A `PollTrace` records how many checks were performed, the millisecond
delays slept between checks, and the terminal outcome. -/

/-- Terminal outcome of a polling loop.  `stillPolling` marks the case where
the status oracle was exhausted before a terminal status appeared: the source
would simply still be waiting, so no theorem below ever relies on it. -/
inductive PollOutcome where
  | success
  | failure (status : String)
  | stillPolling
  deriving DecidableEq, Repr

/-- Observable behaviour of one polling loop. -/
structure PollTrace where
  checks : Nat
  delays : List Nat
  outcome : PollOutcome
  deriving DecidableEq, Repr

/-- `checkDomainStatus`: poll `getOperationDetail`; on `IN_PROGRESS` or
`SUBMITTED` wait 30000 ms and poll again; on `SUCCESSFUL` resolve; on any
other status throw `"Failed to register domain. aborting..."`. -/
def checkDomainStatus : List String → PollTrace
  | [] => { checks := 0, delays := [], outcome := PollOutcome.stillPolling }
  | s :: rest =>
      if s = "IN_PROGRESS" ∨ s = "SUBMITTED" then
        let t := checkDomainStatus rest
        { checks := t.checks + 1, delays := 30000 :: t.delays,
          outcome := t.outcome }
      else if s = "SUCCESSFUL" then
        { checks := 1, delays := [], outcome := PollOutcome.success }
      else
        { checks := 1, delays := [], outcome := PollOutcome.failure s }

/-- `checkGhStatus`: poll the GitHub actions run; on `queued` or
`in_progress` wait 30000 ms and poll again; on `completed` resolve; on any
other status throw `"Failed to deploy site. aborting..."`. -/
def checkGhStatus : List String → PollTrace
  | [] => { checks := 0, delays := [], outcome := PollOutcome.stillPolling }
  | s :: rest =>
      if s = "queued" ∨ s = "in_progress" then
        let t := checkGhStatus rest
        { checks := t.checks + 1, delays := 30000 :: t.delays,
          outcome := t.outcome }
      else if s = "completed" then
        { checks := 1, delays := [], outcome := PollOutcome.success }
      else
        { checks := 1, delays := [], outcome := PollOutcome.failure s }

/-- `checkTerraformStatus`: poll the terraform run; on `pending`, `planning`,
`applying` or `plan_queued` wait 30000 ms and poll again; on `applied`
resolve; on any other status throw
`"Failed to create resources. aborting..."`. -/
def checkTerraformStatus : List String → PollTrace
  | [] => { checks := 0, delays := [], outcome := PollOutcome.stillPolling }
  | s :: rest =>
      if s = "pending" ∨ s = "planning" ∨ s = "applying" ∨ s = "plan_queued"
      then
        let t := checkTerraformStatus rest
        { checks := t.checks + 1, delays := 30000 :: t.delays,
          outcome := t.outcome }
      else if s = "applied" then
        { checks := 1, delays := [], outcome := PollOutcome.success }
      else
        { checks := 1, delays := [], outcome := PollOutcome.failure s }

/-! ## Name normalisation and mode inference

`rawName` is `process.argv[2]`.  JavaScript strings are sequences of
characters, modelled as `List Char` with `String` wrappers kept under the
source's names. -/

/-- `raw.replace(/^@dvargas92495\//, "")`: the start-anchored regex matches
at most once, removing a leading `@dvargas92495/` when present. -/
def dropScope (raw : List Char) : List Char :=
  let p := "@dvargas92495/".toList
  if raw.take p.length = p then raw.drop p.length else raw

/-- `s.replace(/\.davidvargas\.me$/, "")`: the end-anchored regex matches at
most once, removing a trailing `.davidvargas.me` when present. -/
def dropDvSuffix (s : List Char) : List Char :=
  let q := ".davidvargas.me".toList
  if q.length ≤ s.length ∧ s.drop (s.length - q.length) = q then
    s.take (s.length - q.length)
  else s

/-- `rawName.replace(/^@dvargas92495\//, "").replace(/\.davidvargas\.me$/, "")`. -/
def projectNameL (rawName : List Char) : List Char :=
  dropDvSuffix (dropScope rawName)

/-- `projectName.replace(/\./g, "-")`: every dot becomes a dash. -/
def safeProjectNameL (rawName : List Char) : List Char :=
  (projectNameL rawName).map (fun c => if c = '.' then '-' else c)

/-- `safeProjectName.replace(dash-regex-global, "_")`: every dash becomes an
underscore. -/
def mysqlNameL (rawName : List Char) : List Char :=
  (safeProjectNameL rawName).map (fun c => if c = '-' then '_' else c)

/-- String-level `projectName`. -/
def projectName (rawName : String) : String := ⟨projectNameL rawName.data⟩

/-- String-level `safeProjectName`. -/
def safeProjectName (rawName : String) : String :=
  ⟨safeProjectNameL rawName.data⟩

/-- String-level `mysqlName`. -/
def mysqlName (rawName : String) : String := ⟨mysqlNameL rawName.data⟩

/-- `fs.mkdirSync(projectName)` in the "Make Project Directory" task: the
directory is created under the normalised project name. -/
def makeProjectDirectoryArg (rawName : String) : String := projectName rawName

/-- `name: projectName` in the repo-creation POST of "Create a github
repo": the repository is created under the normalised project name. -/
def createGithubRepoName (rawName : String) : String := projectName rawName

/-- `UserName: safeProjectName` in the IAM calls of "Create Site Manager". -/
def iamUserName (rawName : String) : String := safeProjectName rawName

/-- `name: safeProjectName` in the workspace-creation POST of
"Create Workspace And Kick off Run". -/
def terraformWorkspaceName (rawName : String) : String :=
  safeProjectName rawName

/-- `` CREATE DATABASE ${mysqlName} `` in the database tasks. -/
def createDatabaseArg (rawName : String) : String := mysqlName rawName

/-- The name-bearing fields of the `packageJson` object generated by the
"Write Package JSON" task (the remaining fields of the object literal carry
no project name). -/
structure PackageJsonNames where
  name : String
  description : String
  repository : String
  deriving DecidableEq, Repr

/-- `name: rawName`, ``description: `Description for ${rawName}` ``,
``repository: `dvargas92495/${projectName}` `` from the `packageJson`
object literal of "Write Package JSON": the manifest's `name` and
`description` embed the raw positional argument, while `repository` uses
the normalised project name. -/
def writePackageJson (rawName : String) : PackageJsonNames :=
  { name := rawName,
    description := "Description for " ++ rawName,
    repository := "dvargas92495/" ++ projectName rawName }

/-- `isApp = rawName.includes(".") || flags.app || false`: application mode
holds when the raw positional name contains a dot (`includes` with the
one-character needle `"."` is containment of that character among the
string's characters) or the `--app` flag was passed. -/
def isApp (rawName : String) (appFlag : Bool) : Bool :=
  rawName.data.contains '.' || appFlag

/-- The "Validate Package Name" task: `skip: () => isApp`; the action runs
`validate-npm-package-name` and throws on an invalid name — its outcome is
a parameter since no claim depends on it. -/
def validatePackageNameTask (rawName : String) (appFlag : Bool)
    (outcome : Except String Unit) : Task :=
  { title := "Validate Package Name", action := outcome,
    skip := some (isApp rawName appFlag) }

/-! ## Task bodies built on the polling helpers -/

/-- The contact fields destructured (with `""` defaults) from the
`CONTACT_DETAIL` JSON environment variable. -/
structure ContactDetail where
  AddressLine1 : String := ""
  AddressLine2 : String := ""
  City : String := ""
  State : String := ""
  ZipCode : String := ""
  PhoneNumber : String := ""
  deriving Repr

/-- Responses of the external services consulted by the
"Verify site ownership" task, in the order the task consumes them. -/
structure DomainEnv where
  /-- result of `getHostedZoneIdByName()`. -/
  hostedZoneId : Option String := none
  /-- terminal result of `checkAvailability()`. -/
  availability : String := "AVAILABLE"
  /-- `SuggestionsList` domain names from `getDomainSuggestions`. -/
  suggestions : List String := []
  /-- parsed `CONTACT_DETAIL`. -/
  contact : ContactDetail := {}
  /-- statuses returned by the successive `getOperationDetail` calls after
  `registerDomain` succeeds. -/
  registerStatuses : List String := []
  deriving Repr

/-- Body of "Verify site ownership": resolve immediately when the hosted
zone already exists; otherwise fail when the domain is unavailable, fail on
incomplete contact details, and otherwise register the domain and long-poll
`checkDomainStatus` (whose terminal failure throws
`"Failed to register domain. aborting..."` — the `stillPolling` branch is
outside the embedding's domain, see `PollOutcome`). -/
def verifySiteOwnershipAction (DomainName : String) (env : DomainEnv) :
    Except String Unit :=
  match env.hostedZoneId with
  | some _ => Except.ok ()
  | none =>
      if env.availability ≠ "AVAILABLE" then
        Except.error ("Domain " ++ DomainName ++
          " is not available and not owned (" ++ env.availability ++
          "), try one of these:\n" ++
          String.intercalate "," (env.suggestions.map (fun d => "- " ++ d))
          ++ "\naborting...")
      else if env.contact.AddressLine1 = "" ∨ env.contact.AddressLine2 = ""
          ∨ env.contact.City = "" ∨ env.contact.State = ""
          ∨ env.contact.ZipCode = "" ∨ env.contact.PhoneNumber = "" then
        Except.error
          "Invalid Address entered in CONTACT_DETAIL stringified JSON env variable"
      else
        match (checkDomainStatus env.registerStatuses).outcome with
        | PollOutcome.success => Except.ok ()
        | PollOutcome.failure _ =>
            Except.error "Failed to register domain. aborting..."
        | PollOutcome.stillPolling =>
            Except.error "oracle exhausted while still polling"

/-- The "Verify site ownership" task object: `skip: () => !isApp`. -/
def verifySiteOwnershipTask (rawName : String) (appFlag : Bool)
    (DomainName : String) (env : DomainEnv) : Task :=
  { title := "Verify site ownership",
    action := verifySiteOwnershipAction DomainName env,
    skip := some (!isApp rawName appFlag) }

/-- Body of "Kick off first action": dispatch the workflow, then long-poll
`checkGhStatus`, whose terminal failure throws
`"Failed to deploy site. aborting..."`; no handler catches these errors, so
they reject the task's promise. -/
def kickOffFirstActionAction (dispatch : Except String Unit)
    (ghStatuses : List String) : Except String Unit :=
  match dispatch with
  | Except.error m => Except.error m
  | Except.ok _ =>
      match (checkGhStatus ghStatuses).outcome with
      | PollOutcome.success => Except.ok ()
      | PollOutcome.failure _ =>
          Except.error "Failed to deploy site. aborting..."
      | PollOutcome.stillPolling =>
          Except.error "oracle exhausted while still polling"

/-- The "Kick off first action" task object: `skip: () => !isApp`. -/
def kickOffFirstActionTask (rawName : String) (appFlag : Bool)
    (dispatch : Except String Unit) (ghStatuses : List String) : Task :=
  { title := "Kick off first action",
    action := kickOffFirstActionAction dispatch ghStatuses,
    skip := some (!isApp rawName appFlag) }

/-- `.catch((e) => { console.log(chalk.yellow("Failed to kick off the
terraform run. Do so manually. ...")) })`: the handler returns normally, so
the rejected promise recovers and resolves successfully. -/
def catchAndWarn : Except String Unit → Except String Unit
  | Except.error _ => Except.ok ()
  | Except.ok u => Except.ok u

/-- External responses consumed by "Create Workspace And Kick off Run". -/
structure TerraformEnv where
  /-- outcome of the unguarded chain (oauth client lookup, oauth token
  lookup, workspace creation); on success, the workspace id. -/
  setup : Except String String := Except.ok ""
  /-- outcome of the guarded section's variable uploads and run creation. -/
  kickoff : Except String Unit := Except.ok ()
  /-- statuses returned by the successive run queries of
  `checkTerraformStatus`. -/
  runStatuses : List String := []
  deriving Repr

/-- Body of "Create Workspace And Kick off Run": the workspace-creation
chain runs unguarded, but variable upload, run creation, and the
`checkTerraformStatus` long poll all sit above a final `catchAndWarn`, so
any error there — including the poll's
`"Failed to create resources. aborting..."` — is logged as a warning and
the task still resolves. -/
def createWorkspaceAndKickOffRunAction (env : TerraformEnv) :
    Except String Unit :=
  match env.setup with
  | Except.error m => Except.error m
  | Except.ok _ =>
      catchAndWarn
        (match env.kickoff with
         | Except.error m => Except.error m
         | Except.ok _ =>
             match (checkTerraformStatus env.runStatuses).outcome with
             | PollOutcome.success => Except.ok ()
             | PollOutcome.failure _ =>
                 Except.error "Failed to create resources. aborting..."
             | PollOutcome.stillPolling =>
                 Except.error "oracle exhausted while still polling")

/-- The "Create Workspace And Kick off Run" task object: `skip: () => !isApp`. -/
def createWorkspaceAndKickOffRunTask (rawName : String) (appFlag : Bool)
    (env : TerraformEnv) : Task :=
  { title := "Create Workspace And Kick off Run",
    action := createWorkspaceAndKickOffRunAction env,
    skip := some (!isApp rawName appFlag) }

/-- Which task an effect's skip evaluation or action invocation concerns. -/
def Effect.titleOf : Effect → Option String
  | Effect.invoked t => some t
  | Effect.skipEval t _ => some t
  | _ => none

theorem run_cons_ok (t : Task) (rest : List Task)
    (h : (runTask t).2.success = true) :
    run (t :: rest) = ((runTask t).1 ++ (run rest).1, (run rest).2) := by
  simp [run, h]

/-! ## Claims about the task runner -/

/-- C1: if every task before `t` succeeds under `runTask` (it is skipped or
its action completes) and `t` itself is not skipped and its action fails
with message `m`, then the run rejects with exactly `m`, and every action
invocation in the whole trace lies in the part of the trace produced by the
earlier tasks and `t` itself — no later task's action is ever invoked. -/
theorem run_fail_halts_later_actions (pre post : List Task) (t : Task)
    (m : String)
    (hpre : ∀ u ∈ pre, (runTask u).2.success = true)
    (hskip : t.skip ≠ some true)
    (hfail : t.action = Except.error m) :
    (run (pre ++ t :: post)).2 = RunOutcome.rejected (some m) ∧
    ∀ e ∈ (run (pre ++ t :: post)).1, e.isInvoke = true →
      e ∈ runEffs pre ++ (runTask t).1 := by
  have hf2 : (runTask t).2 = { success := false, message := some m } :=
    runTask_fail t m hskip hfail
  have hf : (runTask t).2.success = false := by rw [hf2]
  have hd := run_append_ok pre (t :: post) hpre
  rw [run_cons_fail t post hf, hf2] at hd
  rw [hd]
  refine ⟨rfl, ?_⟩
  intro e he hinv
  rw [← List.append_assoc] at he
  rcases List.mem_append.mp he with h1 | h2
  · exact h1
  · obtain ⟨u, _, hu⟩ := List.mem_map.mp h2
    rw [← hu] at hinv
    simp [Effect.isInvoke] at hinv

/-- C2: when the tasks before `t` all succeed and `t`'s skip predicate
returns `true`, the runner logs "Running" and "Skipped" for `t`, never
invokes `t`'s action (the trace of `t` contains no invocation), and the
remainder of the run is exactly the run of the tasks after `t`. -/
theorem skip_true_proceeds_to_next (pre post : List Task) (t : Task)
    (hpre : ∀ u ∈ pre, (runTask u).2.success = true)
    (hskip : t.skip = some true) :
    run (pre ++ t :: post) =
      (runEffs pre ++
        ([Effect.running t.title, Effect.skipEval t.title true,
          Effect.skippedLog t.title] ++ (run post).1),
       (run post).2) ∧
    ∀ e ∈ (runTask t).1, e.isInvoke = false := by
  have ht : runTask t =
      ([Effect.running t.title, Effect.skipEval t.title true,
        Effect.skippedLog t.title], { success := true }) := by
    simp [runTask, hskip]
  have hd := run_append_ok pre (t :: post) hpre
  rw [run_cons_ok t post (by rw [ht])] at hd
  rw [ht] at hd
  exact ⟨hd, by rw [ht]; intro e he; fin_cases he <;> rfl⟩

/-- C3: when a mid-list task fails, the runner appends one
"skipped due to upstream failure" notification per remaining task — in
particular such a notification is emitted for every remaining task, the
tail of the trace contains no skip-predicate evaluation and no action
invocation for them, and the run terminates rejecting with the triggering
error message. -/
theorem fail_announces_downstream_skips (pre post : List Task) (t : Task)
    (m : String)
    (hpre : ∀ u ∈ pre, (runTask u).2.success = true)
    (hskip : t.skip ≠ some true)
    (hfail : t.action = Except.error m) :
    (run (pre ++ t :: post)).1 =
      runEffs pre ++ (runTask t).1 ++
        post.map (fun u => Effect.downstreamSkipLog u.title) ∧
    (∀ u ∈ post,
      Effect.downstreamSkipLog u.title ∈ (run (pre ++ t :: post)).1) ∧
    (∀ e ∈ post.map (fun u => Effect.downstreamSkipLog u.title),
      e.isInvoke = false ∧ e.isSkipEval = false) ∧
    (run (pre ++ t :: post)).2 = RunOutcome.rejected (some m) := by
  have hf2 : (runTask t).2 = { success := false, message := some m } :=
    runTask_fail t m hskip hfail
  have hf : (runTask t).2.success = false := by rw [hf2]
  have hd := run_append_ok pre (t :: post) hpre
  rw [run_cons_fail t post hf, hf2] at hd
  rw [hd]
  refine ⟨by rw [List.append_assoc], ?_, ?_, rfl⟩
  · intro u hu
    simp only [List.mem_append, List.mem_map]
    exact Or.inr (Or.inr ⟨u, hu, rfl⟩)
  · intro e he
    obtain ⟨u, _, hu⟩ := List.mem_map.mp he
    rw [← hu]
    exact ⟨rfl, rfl⟩

/-- C4: a task action that throws or rejects with message `m` is caught at
the `runTask` boundary and converted into the structured result
`{ success := false, message := some m }` — `runTask` itself always resolves
with a structured result, so the error never escapes the runner. -/
theorem action_error_caught_at_boundary (t : Task) (m : String)
    (hskip : t.skip ≠ some true)
    (hfail : t.action = Except.error m) :
    (runTask t).2 = { success := false, message := some m } ∧
    (runTask t).1 =
      [Effect.running t.title] ++
        (if t.skip = some false then [Effect.skipEval t.title false] else [])
        ++ [Effect.invoked t.title, Effect.failedLog t.title] := by
  cases h : t.skip with
  | none => simp [runTask, h, hfail]
  | some b =>
    cases b with
    | true => exact absurd h hskip
    | false => simp [runTask, h, hfail]

theorem run_fail_halts_later_actions_witness :
    (run [⟨"a", Except.error "boom", none⟩, ⟨"b", Except.ok (), none⟩]).2 =
      RunOutcome.rejected (some "boom") :=
  (run_fail_halts_later_actions [] [⟨"b", Except.ok (), none⟩]
    ⟨"a", Except.error "boom", none⟩ "boom" (by simp) (by simp) rfl).1

theorem skip_true_proceeds_to_next_witness :
    run [⟨"a", Except.error "unused", some true⟩, ⟨"b", Except.ok (), none⟩]
      = ([Effect.running "a", Effect.skipEval "a" true,
          Effect.skippedLog "a", Effect.running "b", Effect.invoked "b",
          Effect.succeededLog "b"], RunOutcome.resolved) := by
  have h := (skip_true_proceeds_to_next [] [⟨"b", Except.ok (), none⟩]
    ⟨"a", Except.error "unused", some true⟩ (by simp) rfl).1
  exact h.trans (by decide)

theorem fail_announces_downstream_skips_witness :
    Effect.downstreamSkipLog "b" ∈
      (run [⟨"a", Except.error "halt", none⟩, ⟨"b", Except.ok (), none⟩]).1 :=
  (fail_announces_downstream_skips [] [⟨"b", Except.ok (), none⟩]
    ⟨"a", Except.error "halt", none⟩ "halt" (by simp) (by simp) rfl).2.1
    ⟨"b", Except.ok (), none⟩ (by simp)

theorem action_error_caught_at_boundary_witness :
    (runTask ⟨"a", Except.error "kaput", none⟩).2 =
      { success := false, message := some "kaput" } :=
  (action_error_caught_at_boundary ⟨"a", Except.error "kaput", none⟩ "kaput"
    (by simp) rfl).1

theorem runTask_trace_titles (t : Task) :
    ∀ e ∈ (runTask t).1, (e.isInvoke = true ∨ e.isSkipEval = true) →
      e.titleOf = some t.title := by
  intro e he hor
  cases hs : t.skip with
  | none =>
    cases ha : t.action with
    | ok u =>
      simp [runTask, hs, ha] at he
      rcases he with h | h | h <;> subst h <;>
        first | rfl | simp [Effect.isInvoke, Effect.isSkipEval] at hor
    | error m =>
      simp [runTask, hs, ha] at he
      rcases he with h | h | h <;> subst h <;>
        first | rfl | simp [Effect.isInvoke, Effect.isSkipEval] at hor
  | some b =>
    cases b with
    | true =>
      simp [runTask, hs] at he
      rcases he with h | h | h <;> subst h <;>
        first | rfl | simp [Effect.isInvoke, Effect.isSkipEval] at hor
    | false =>
      cases ha : t.action with
      | ok u =>
        simp [runTask, hs, ha] at he
        rcases he with h | h | h | h <;> subst h <;>
          first | rfl | simp [Effect.isInvoke, Effect.isSkipEval] at hor
      | error m =>
        simp [runTask, hs, ha] at he
        rcases he with h | h | h | h <;> subst h <;>
          first | rfl | simp [Effect.isInvoke, Effect.isSkipEval] at hor

/-- C5: single-task dispatch.  When no task of the list carries the
requested title, only the "task not found" error is logged and no task is
touched.  When `find?` locates the (first) task `t` with the requested
title, the whole trace is `runTask t`'s trace followed by the final
"Done!"/error log — so every skip-predicate evaluation and every action
invocation in the trace concerns `t`'s title only — and the outcome is
`t`'s structured result. -/
theorem single_task_dispatch (tasks : List Task) (title : String) :
    ((∀ u ∈ tasks, u.title ≠ title) →
      singleTaskMode tasks title =
        ([Effect.notFoundLog title], SingleOutcome.notFound)) ∧
    (∀ t, tasks.find? (fun u => u.title == title) = some t →
      (singleTaskMode tasks title).1 =
        (runTask t).1 ++
          [if (runTask t).2.success then Effect.doneLog
           else Effect.errorLog (runTask t).2.message] ∧
      (singleTaskMode tasks title).2 = SingleOutcome.completed (runTask t).2 ∧
      ∀ e ∈ (singleTaskMode tasks title).1,
        e.isInvoke = true ∨ e.isSkipEval = true →
        e.titleOf = some t.title) := by
  constructor
  · intro h
    have hn : tasks.find? (fun u => u.title == title) = none := by
      rw [List.find?_eq_none]
      intro u hu
      simpa using h u hu
    simp [singleTaskMode, hn]
  · intro t ht
    refine ⟨by simp [singleTaskMode, ht], by simp [singleTaskMode, ht], ?_⟩
    intro e he hor
    have he1 : e ∈ (runTask t).1 ++
        [if (runTask t).2.success then Effect.doneLog
         else Effect.errorLog (runTask t).2.message] := by
      simpa [singleTaskMode, ht] using he
    rcases List.mem_append.mp he1 with h1 | h2
    · exact runTask_trace_titles t e h1 hor
    · have : e = (if (runTask t).2.success then Effect.doneLog
          else Effect.errorLog (runTask t).2.message) := by simpa using h2
      rw [this] at hor
      rcases hor with h | h <;> split at h <;>
        simp [Effect.isInvoke, Effect.isSkipEval] at h

theorem single_task_dispatch_witness :
    singleTaskMode [⟨"Git init", Except.ok (), none⟩] "Git push" =
      ([Effect.notFoundLog "Git push"], SingleOutcome.notFound) ∧
    (singleTaskMode [⟨"Git init", Except.ok (), none⟩] "Git init").2 =
      SingleOutcome.completed { success := true } := by
  constructor
  · exact (single_task_dispatch [⟨"Git init", Except.ok (), none⟩]
      "Git push").1 (by simp)
  · have h := ((single_task_dispatch [⟨"Git init", Except.ok (), none⟩]
      "Git init").2 ⟨"Git init", Except.ok (), none⟩ (by simp)).2.1
    exact h.trans (by decide)

/-- C6 counterexample: a full run whose task fails does reject with the
task's error, but the process exit code is 0, not non-zero: the rejection
is handled by the `.catch((e) => console.error(e))` handler, and the
program never sets an exit code, so Node terminates with its default
status 0. -/
theorem exit_nonzero_on_failure_counterexample :
    (run [⟨"t", Except.error "boom", none⟩]).2 =
      RunOutcome.rejected (some "boom") ∧
    fullRunMain "proj" [⟨"t", Except.error "boom", none⟩] =
      ([Effect.running "t", Effect.invoked "t", Effect.failedLog "t",
        Effect.errorLog (some "boom")], 0) := by
  decide

/-- C6 amended: the process exit code is 0 on every full run — on success
after logging "... is Ready!", and on first task failure after the `.catch`
handler prints the triggering error; failure is signalled only through the
printed message, never through the exit code. -/
theorem exit_code_always_zero (name : String) (tasks : List Task) :
    (fullRunMain name tasks).2 = 0 ∧
    ((run tasks).2 = RunOutcome.resolved →
      (fullRunMain name tasks).1 = (run tasks).1 ++ [Effect.readyLog name]) ∧
    (∀ m, (run tasks).2 = RunOutcome.rejected m →
      (fullRunMain name tasks).1 = (run tasks).1 ++ [Effect.errorLog m]) := by
  rcases h : run tasks with ⟨effs, o⟩
  cases o with
  | resolved => simp [fullRunMain, h]
  | rejected m => simp [fullRunMain, h]

theorem exit_code_always_zero_witness :
    (fullRunMain "p" [⟨"t", Except.error "x", none⟩]).2 = 0 ∧
    (fullRunMain "p" [⟨"t", Except.ok (), none⟩]).1 =
      (run [⟨"t", Except.ok (), none⟩]).1 ++ [Effect.readyLog "p"] := by
  constructor
  · exact (exit_code_always_zero "p" [⟨"t", Except.error "x", none⟩]).1
  · exact (exit_code_always_zero "p" [⟨"t", Except.ok (), none⟩]).2.1
      (by decide)

/-! ## Claims about the polling helpers -/

theorem checkDomainStatus_progress (pre rest : List String)
    (h : ∀ s ∈ pre, s = "IN_PROGRESS" ∨ s = "SUBMITTED") :
    checkDomainStatus (pre ++ rest) =
      { checks := pre.length + (checkDomainStatus rest).checks,
        delays := List.replicate pre.length 30000 ++
          (checkDomainStatus rest).delays,
        outcome := (checkDomainStatus rest).outcome } := by
  induction pre with
  | nil => simp
  | cons s ss ih =>
    have hs : s = "IN_PROGRESS" ∨ s = "SUBMITTED" := h s (by simp)
    have hss : ∀ x ∈ ss, x = "IN_PROGRESS" ∨ x = "SUBMITTED" :=
      fun x hx => h x (by simp [hx])
    have hcons : checkDomainStatus (s :: (ss ++ rest)) =
        { checks := (checkDomainStatus (ss ++ rest)).checks + 1,
          delays := 30000 :: (checkDomainStatus (ss ++ rest)).delays,
          outcome := (checkDomainStatus (ss ++ rest)).outcome } := by
      simp only [checkDomainStatus]
      rw [if_pos hs]
    rw [List.cons_append, hcons, ih hss]
    simp only [PollTrace.mk.injEq, List.length_cons, List.replicate_succ,
      List.cons_append, and_true, true_and]
    omega

theorem checkGhStatus_progress (pre rest : List String)
    (h : ∀ s ∈ pre, s = "queued" ∨ s = "in_progress") :
    checkGhStatus (pre ++ rest) =
      { checks := pre.length + (checkGhStatus rest).checks,
        delays := List.replicate pre.length 30000 ++
          (checkGhStatus rest).delays,
        outcome := (checkGhStatus rest).outcome } := by
  induction pre with
  | nil => simp
  | cons s ss ih =>
    have hs : s = "queued" ∨ s = "in_progress" := h s (by simp)
    have hss : ∀ x ∈ ss, x = "queued" ∨ x = "in_progress" :=
      fun x hx => h x (by simp [hx])
    have hcons : checkGhStatus (s :: (ss ++ rest)) =
        { checks := (checkGhStatus (ss ++ rest)).checks + 1,
          delays := 30000 :: (checkGhStatus (ss ++ rest)).delays,
          outcome := (checkGhStatus (ss ++ rest)).outcome } := by
      simp only [checkGhStatus]
      rw [if_pos hs]
    rw [List.cons_append, hcons, ih hss]
    simp only [PollTrace.mk.injEq, List.length_cons, List.replicate_succ,
      List.cons_append, and_true, true_and]
    omega

theorem checkTerraformStatus_progress (pre rest : List String)
    (h : ∀ s ∈ pre, s = "pending" ∨ s = "planning" ∨ s = "applying" ∨
      s = "plan_queued") :
    checkTerraformStatus (pre ++ rest) =
      { checks := pre.length + (checkTerraformStatus rest).checks,
        delays := List.replicate pre.length 30000 ++
          (checkTerraformStatus rest).delays,
        outcome := (checkTerraformStatus rest).outcome } := by
  induction pre with
  | nil => simp
  | cons s ss ih =>
    have hs := h s (by simp)
    have hss : ∀ x ∈ ss, x = "pending" ∨ x = "planning" ∨ x = "applying" ∨
        x = "plan_queued" := fun x hx => h x (by simp [hx])
    have hcons : checkTerraformStatus (s :: (ss ++ rest)) =
        { checks := (checkTerraformStatus (ss ++ rest)).checks + 1,
          delays := 30000 :: (checkTerraformStatus (ss ++ rest)).delays,
          outcome := (checkTerraformStatus (ss ++ rest)).outcome } := by
      simp only [checkTerraformStatus]
      rw [if_pos hs]
    rw [List.cons_append, hcons, ih hss]
    simp only [PollTrace.mk.injEq, List.length_cons, List.replicate_succ,
      List.cons_append, and_true, true_and]
    omega

theorem checkDomainStatus_term (f : String) (rest : List String)
    (hf : ¬(f = "IN_PROGRESS" ∨ f = "SUBMITTED")) :
    checkDomainStatus (f :: rest) =
      if f = "SUCCESSFUL" then
        { checks := 1, delays := [], outcome := PollOutcome.success }
      else { checks := 1, delays := [], outcome := PollOutcome.failure f } := by
  simp only [checkDomainStatus]
  rw [if_neg hf]

theorem checkGhStatus_term (f : String) (rest : List String)
    (hf : ¬(f = "queued" ∨ f = "in_progress")) :
    checkGhStatus (f :: rest) =
      if f = "completed" then
        { checks := 1, delays := [], outcome := PollOutcome.success }
      else { checks := 1, delays := [], outcome := PollOutcome.failure f } := by
  simp only [checkGhStatus]
  rw [if_neg hf]

theorem checkTerraformStatus_term (f : String) (rest : List String)
    (hf : ¬(f = "pending" ∨ f = "planning" ∨ f = "applying" ∨
      f = "plan_queued")) :
    checkTerraformStatus (f :: rest) =
      if f = "applied" then
        { checks := 1, delays := [], outcome := PollOutcome.success }
      else { checks := 1, delays := [], outcome := PollOutcome.failure f } := by
  simp only [checkTerraformStatus]
  rw [if_neg hf]

/-- C7: for each of the three status-polling helpers, a status sequence
that is in-progress for the first `N` queries and then success-terminal
produces exactly `N + 1` status checks with a fixed 30000 ms delay between
consecutive checks and a success outcome; and a sequence whose first
terminal status is failure-terminal produces an error at that check —
exactly `N + 1` checks, nothing of the sequence beyond it consumed. -/
theorem poll_until_terminal :
    (∀ pre rest, (∀ s ∈ pre, s = "IN_PROGRESS" ∨ s = "SUBMITTED") →
      checkDomainStatus (pre ++ "SUCCESSFUL" :: rest) =
        { checks := pre.length + 1,
          delays := List.replicate pre.length 30000,
          outcome := PollOutcome.success }) ∧
    (∀ pre f rest, (∀ s ∈ pre, s = "IN_PROGRESS" ∨ s = "SUBMITTED") →
      ¬(f = "IN_PROGRESS" ∨ f = "SUBMITTED") → f ≠ "SUCCESSFUL" →
      checkDomainStatus (pre ++ f :: rest) =
        { checks := pre.length + 1,
          delays := List.replicate pre.length 30000,
          outcome := PollOutcome.failure f }) ∧
    (∀ pre rest, (∀ s ∈ pre, s = "queued" ∨ s = "in_progress") →
      checkGhStatus (pre ++ "completed" :: rest) =
        { checks := pre.length + 1,
          delays := List.replicate pre.length 30000,
          outcome := PollOutcome.success }) ∧
    (∀ pre f rest, (∀ s ∈ pre, s = "queued" ∨ s = "in_progress") →
      ¬(f = "queued" ∨ f = "in_progress") → f ≠ "completed" →
      checkGhStatus (pre ++ f :: rest) =
        { checks := pre.length + 1,
          delays := List.replicate pre.length 30000,
          outcome := PollOutcome.failure f }) ∧
    (∀ pre rest, (∀ s ∈ pre, s = "pending" ∨ s = "planning" ∨
        s = "applying" ∨ s = "plan_queued") →
      checkTerraformStatus (pre ++ "applied" :: rest) =
        { checks := pre.length + 1,
          delays := List.replicate pre.length 30000,
          outcome := PollOutcome.success }) ∧
    (∀ pre f rest, (∀ s ∈ pre, s = "pending" ∨ s = "planning" ∨
        s = "applying" ∨ s = "plan_queued") →
      ¬(f = "pending" ∨ f = "planning" ∨ f = "applying" ∨
        f = "plan_queued") → f ≠ "applied" →
      checkTerraformStatus (pre ++ f :: rest) =
        { checks := pre.length + 1,
          delays := List.replicate pre.length 30000,
          outcome := PollOutcome.failure f }) := by
  refine ⟨?_, ?_, ?_, ?_, ?_, ?_⟩
  · intro pre rest h
    rw [checkDomainStatus_progress pre _ h,
      checkDomainStatus_term "SUCCESSFUL" rest (by decide), if_pos rfl]
    simp
  · intro pre f rest h hf hf2
    rw [checkDomainStatus_progress pre _ h,
      checkDomainStatus_term f rest hf, if_neg hf2]
    simp
  · intro pre rest h
    rw [checkGhStatus_progress pre _ h,
      checkGhStatus_term "completed" rest (by decide), if_pos rfl]
    simp
  · intro pre f rest h hf hf2
    rw [checkGhStatus_progress pre _ h, checkGhStatus_term f rest hf,
      if_neg hf2]
    simp
  · intro pre rest h
    rw [checkTerraformStatus_progress pre _ h,
      checkTerraformStatus_term "applied" rest (by decide), if_pos rfl]
    simp
  · intro pre f rest h hf hf2
    rw [checkTerraformStatus_progress pre _ h,
      checkTerraformStatus_term f rest hf, if_neg hf2]
    simp

theorem poll_until_terminal_witness :
    checkDomainStatus ["IN_PROGRESS", "SUCCESSFUL"] =
      { checks := 2, delays := [30000], outcome := PollOutcome.success } ∧
    checkDomainStatus ["SUBMITTED", "ERROR", "SUCCESSFUL"] =
      { checks := 2, delays := [30000],
        outcome := PollOutcome.failure "ERROR" } ∧
    checkGhStatus ["queued", "completed"] =
      { checks := 2, delays := [30000], outcome := PollOutcome.success } ∧
    checkGhStatus ["failure"] =
      { checks := 1, delays := [], outcome := PollOutcome.failure "failure" } ∧
    checkTerraformStatus ["planning", "applied"] =
      { checks := 2, delays := [30000], outcome := PollOutcome.success } ∧
    checkTerraformStatus ["errored"] =
      { checks := 1, delays := [], outcome := PollOutcome.failure "errored" }
    := by
  refine ⟨?_, ?_, ?_, ?_, ?_, ?_⟩
  · exact (poll_until_terminal.1 ["IN_PROGRESS"] [] (by decide)).trans
      (by decide)
  · exact (poll_until_terminal.2.1 ["SUBMITTED"] "ERROR" ["SUCCESSFUL"]
      (by decide) (by decide) (by decide)).trans (by decide)
  · exact (poll_until_terminal.2.2.1 ["queued"] [] (by decide)).trans
      (by decide)
  · exact (poll_until_terminal.2.2.2.1 [] "failure" [] (by decide)
      (by decide) (by decide)).trans (by decide)
  · exact (poll_until_terminal.2.2.2.2.1 ["planning"] [] (by decide)).trans
      (by decide)
  · exact (poll_until_terminal.2.2.2.2.2 [] "errored" [] (by decide)
      (by decide) (by decide)).trans (by decide)

/-! ## Fatality of polling failures -/

/-- C8 counterexample: in "Create Workspace And Kick off Run" the terraform
polling sits under a `.catch` that only logs a warning, so a failure-terminal
status (`"errored"`) is not fatal: the enclosing task resolves successfully,
the following task's action is still invoked, and the whole run resolves. -/
theorem terraform_poll_failure_not_fatal :
    (checkTerraformStatus ["errored"]).outcome =
      PollOutcome.failure "errored" ∧
    (runTask (createWorkspaceAndKickOffRunTask "a.b" false
      { runStatuses := ["errored"] })).2 = { success := true } ∧
    (run [createWorkspaceAndKickOffRunTask "a.b" false
        { runStatuses := ["errored"] },
      ⟨"Write .env", Except.ok (), none⟩]).2 = RunOutcome.resolved ∧
    Effect.invoked "Write .env" ∈
      (run [createWorkspaceAndKickOffRunTask "a.b" false
          { runStatuses := ["errored"] },
        ⟨"Write .env", Except.ok (), none⟩]).1 := by
  decide

/-- C8 amended: a failure-terminal polling status is fatal for the domain
registration poll (inside "Verify site ownership", on the path that
registers the domain) and for the CI-run poll (inside "Kick off first
action"): the enclosing task fails with the poll's error message and every
remaining task is halted with a downstream-skip announcement.  For the
terraform-apply poll (inside "Create Workspace And Kick off Run") it is
not: the task's final `.catch` swallows the error, the task succeeds, and
the run proceeds with the remaining tasks. -/
theorem polling_failure_fatality :
    (∀ (rawName : String) (appFlag : Bool) (DomainName : String)
        (envD : DomainEnv) (post : List Task) (f : String),
      isApp rawName appFlag = true →
      envD.hostedZoneId = none →
      envD.availability = "AVAILABLE" →
      ¬(envD.contact.AddressLine1 = "" ∨ envD.contact.AddressLine2 = "" ∨
        envD.contact.City = "" ∨ envD.contact.State = "" ∨
        envD.contact.ZipCode = "" ∨ envD.contact.PhoneNumber = "") →
      (checkDomainStatus envD.registerStatuses).outcome =
        PollOutcome.failure f →
      run (verifySiteOwnershipTask rawName appFlag DomainName envD :: post) =
        ((runTask (verifySiteOwnershipTask rawName appFlag DomainName
            envD)).1 ++
          post.map (fun u => Effect.downstreamSkipLog u.title),
         RunOutcome.rejected
           (some "Failed to register domain. aborting..."))) ∧
    (∀ (rawName : String) (appFlag : Bool) (ghStatuses : List String)
        (post : List Task) (f : String),
      isApp rawName appFlag = true →
      (checkGhStatus ghStatuses).outcome = PollOutcome.failure f →
      run (kickOffFirstActionTask rawName appFlag (Except.ok ())
          ghStatuses :: post) =
        ((runTask (kickOffFirstActionTask rawName appFlag (Except.ok ())
            ghStatuses)).1 ++
          post.map (fun u => Effect.downstreamSkipLog u.title),
         RunOutcome.rejected (some "Failed to deploy site. aborting..."))) ∧
    (∀ (rawName : String) (appFlag : Bool) (envT : TerraformEnv)
        (post : List Task) (f : String) (wid : String),
      isApp rawName appFlag = true →
      envT.setup = Except.ok wid →
      (checkTerraformStatus envT.runStatuses).outcome =
        PollOutcome.failure f →
      (runTask (createWorkspaceAndKickOffRunTask rawName appFlag envT)).2 =
        { success := true } ∧
      run (createWorkspaceAndKickOffRunTask rawName appFlag envT :: post) =
        ((runTask (createWorkspaceAndKickOffRunTask rawName appFlag
            envT)).1 ++ (run post).1,
         (run post).2)) := by
  refine ⟨?_, ?_, ?_⟩
  · intro rawName appFlag DomainName envD post f happ hz hav hc hpoll
    have ha : verifySiteOwnershipAction DomainName envD =
        Except.error "Failed to register domain. aborting..." := by
      simp only [verifySiteOwnershipAction, hz]
      rw [if_neg (by simp [hav]), if_neg hc, hpoll]
    have hr : (runTask (verifySiteOwnershipTask rawName appFlag DomainName
        envD)).2 =
        { success := false,
          message := some "Failed to register domain. aborting..." } :=
      runTask_fail _ _ (by simp [verifySiteOwnershipTask, happ])
        (by simpa [verifySiteOwnershipTask] using ha)
    rw [run_cons_fail _ post (by rw [hr]), hr]
  · intro rawName appFlag ghStatuses post f happ hpoll
    have ha : kickOffFirstActionAction (Except.ok ()) ghStatuses =
        Except.error "Failed to deploy site. aborting..." := by
      simp only [kickOffFirstActionAction]
      rw [hpoll]
    have hr : (runTask (kickOffFirstActionTask rawName appFlag
        (Except.ok ()) ghStatuses)).2 =
        { success := false,
          message := some "Failed to deploy site. aborting..." } :=
      runTask_fail _ _ (by simp [kickOffFirstActionTask, happ])
        (by simpa [kickOffFirstActionTask] using ha)
    rw [run_cons_fail _ post (by rw [hr]), hr]
  · intro rawName appFlag envT post f wid happ hsetup hpoll
    have ha : createWorkspaceAndKickOffRunAction envT = Except.ok () := by
      simp only [createWorkspaceAndKickOffRunAction, hsetup]
      cases hk : envT.kickoff with
      | error m => simp [catchAndWarn]
      | ok u =>
        cases ho : (checkTerraformStatus envT.runStatuses).outcome <;>
          simp [catchAndWarn]
    have hr : (runTask (createWorkspaceAndKickOffRunTask rawName appFlag
        envT)).2 = { success := true } :=
      runTask_success_of_ok _
        (by simp [createWorkspaceAndKickOffRunTask, happ])
        (by simpa [createWorkspaceAndKickOffRunTask] using ha)
    exact ⟨hr, run_cons_ok _ post (by rw [hr])⟩

/-- A fully populated contact record, for concrete instantiations. -/
def sampleContact : ContactDetail :=
  { AddressLine1 := "a1", AddressLine2 := "a2", City := "c", State := "s",
    ZipCode := "z", PhoneNumber := "p" }

/-- A domain environment whose registration poll ends in failure. -/
def sampleDomainEnv : DomainEnv :=
  { hostedZoneId := none, availability := "AVAILABLE", suggestions := [],
    contact := sampleContact, registerStatuses := ["ERROR"] }

/-- A terraform environment whose run poll ends in failure. -/
def sampleTerraformEnv : TerraformEnv :=
  { setup := Except.ok "ws", kickoff := Except.ok (),
    runStatuses := ["errored"] }

theorem polling_failure_fatality_witness :
    (run [verifySiteOwnershipTask "a.b" false "a.b" sampleDomainEnv]).2 =
      RunOutcome.rejected (some "Failed to register domain. aborting...") ∧
    (run [kickOffFirstActionTask "a.b" false (Except.ok ())
        ["failure"]]).2 =
      RunOutcome.rejected (some "Failed to deploy site. aborting...") ∧
    (runTask (createWorkspaceAndKickOffRunTask "a.b" false
      sampleTerraformEnv)).2 = { success := true } := by
  refine ⟨?_, ?_, ?_⟩
  · exact congrArg Prod.snd (polling_failure_fatality.1 "a.b" false "a.b"
      sampleDomainEnv [] "ERROR" (by decide) rfl rfl (by decide) (by decide))
  · exact congrArg Prod.snd (polling_failure_fatality.2.1 "a.b" false
      ["failure"] [] "failure" (by decide) (by decide))
  · exact (polling_failure_fatality.2.2 "a.b" false sampleTerraformEnv []
      "errored" "ws" (by decide) rfl (by decide)).1

/-! ## Application-mode inference and name normalisation -/

/-- C9: a positional name containing a dot turns application mode on even
with the `--app` flag absent; in that case "Validate Package Name" is
skipped — its trace is exactly the "Running"/skip-evaluation/"Skipped" logs,
with no action invocation, so the npm name validation never runs — while
the "Verify site ownership" task's skip predicate returns `false`, so that
task is not skipped. -/
theorem dotted_name_implies_app_mode (rawName : String)
    (outcome : Except String Unit) (DomainName : String) (envD : DomainEnv)
    (hdot : rawName.data.contains '.' = true) :
    isApp rawName false = true ∧
    runTask (validatePackageNameTask rawName false outcome) =
      ([Effect.running "Validate Package Name",
        Effect.skipEval "Validate Package Name" true,
        Effect.skippedLog "Validate Package Name"],
       { success := true }) ∧
    (∀ e ∈ (runTask (validatePackageNameTask rawName false outcome)).1,
      e.isInvoke = false) ∧
    (verifySiteOwnershipTask rawName false DomainName envD).skip =
      some false := by
    have happ : isApp rawName false = true := by
      simp only [isApp, Bool.or_false, hdot]
    have hrt : runTask (validatePackageNameTask rawName false outcome) =
        ([Effect.running "Validate Package Name",
          Effect.skipEval "Validate Package Name" true,
          Effect.skippedLog "Validate Package Name"],
         { success := true }) := by
      simp [runTask, validatePackageNameTask, happ]
    refine ⟨happ, hrt, ?_, by simp [verifySiteOwnershipTask, happ]⟩
    rw [hrt]
    intro e he
    fin_cases he <;> rfl

theorem dotted_name_implies_app_mode_witness :
    isApp "my-app.example.com" false = true ∧
    (runTask (validatePackageNameTask "my-app.example.com" false
      (Except.ok ()))).1 =
      [Effect.running "Validate Package Name",
       Effect.skipEval "Validate Package Name" true,
       Effect.skippedLog "Validate Package Name"] ∧
    (verifySiteOwnershipTask "my-app.example.com" false "example.com"
      {}).skip = some false := by
  have h := dotted_name_implies_app_mode "my-app.example.com"
    (Except.ok ()) "example.com" {} (by decide)
  exact ⟨h.1, congrArg Prod.fst h.2.1, h.2.2.2⟩

/-- C10 counterexample: the claim fails for "all generated files" — on the
raw positional argument `"@dvargas92495/my-lib"` the generated package
manifest's `name` field is the raw argument itself (and its description
embeds it), not the normalised `projectName "my-lib"`: "Write Package JSON"
writes `name: rawName`. -/
theorem generated_manifest_keeps_raw_name :
    (writePackageJson "@dvargas92495/my-lib").name =
      "@dvargas92495/my-lib" ∧
    (writePackageJson "@dvargas92495/my-lib").description =
      "Description for @dvargas92495/my-lib" ∧
    projectName "@dvargas92495/my-lib" = "my-lib" ∧
    (writePackageJson "@dvargas92495/my-lib").name ≠
      projectName "@dvargas92495/my-lib" := by
  decide

/-- C10 amended: the created directory and the GitHub repository use the
normalised `projectName`, not the raw positional argument: a leading
`@dvargas92495/` scope and a trailing `.davidvargas.me` suffix are
stripped (a scoped, suffixed raw name reduces to its core); the
workspace/IAM name further replaces every `.` of `projectName` with `-`
(no dot survives) and the database name further replaces every `-` of the
safe name with `_` (no dash survives).  Generated file contents, however,
are not uniformly normalised: the generated package manifest's `name`
field keeps the raw positional argument unchanged (its `repository` field
uses the normalised name). -/
theorem normalised_names_except_manifest (core : List Char) :
    projectNameL ("@dvargas92495/".toList ++ core ++
      ".davidvargas.me".toList) = core ∧
    (∀ raw : List Char, '.' ∉ safeProjectNameL raw) ∧
    (∀ raw : List Char, '-' ∉ mysqlNameL raw) ∧
    makeProjectDirectoryArg "@dvargas92495/roamjs.davidvargas.me" =
      "roamjs" ∧
    createGithubRepoName "@dvargas92495/roamjs.davidvargas.me" =
      "roamjs" ∧
    safeProjectName "a.b.c" = "a-b-c" ∧
    mysqlName "a.b-c" = "a_b_c" ∧
    (∀ raw : String, iamUserName raw = safeProjectName raw ∧
      terraformWorkspaceName raw = safeProjectName raw ∧
      createDatabaseArg raw = mysqlName raw ∧
      (writePackageJson raw).name = raw ∧
      (writePackageJson raw).repository =
        "dvargas92495/" ++ projectName raw) := by
  refine ⟨?_, ?_, ?_, by decide, by decide, by decide, by decide,
    fun raw => ⟨rfl, rfl, rfl, rfl, rfl⟩⟩
  · have hscope : dropScope ("@dvargas92495/".toList ++
        (core ++ ".davidvargas.me".toList)) =
        core ++ ".davidvargas.me".toList := by
      simp only [dropScope]
      rw [List.take_left, if_pos rfl]
      exact List.drop_left _ _
    have hl : (core ++ ".davidvargas.me".toList).length -
        ".davidvargas.me".toList.length = core.length := by
      simp
    have hsuf : dropDvSuffix (core ++ ".davidvargas.me".toList) = core := by
      simp only [dropDvSuffix]
      rw [if_pos ⟨by simp, by rw [hl]; exact List.drop_left _ _⟩, hl]
      exact List.take_left _ _
    rw [projectNameL, List.append_assoc, hscope, hsuf]
  · intro raw hmem
    obtain ⟨c, _, hc⟩ := List.mem_map.mp hmem
    by_cases h : c = '.' <;> simp [h] at hc
  · intro raw hmem
    obtain ⟨c, _, hc⟩ := List.mem_map.mp hmem
    by_cases h : c = '-' <;> simp [h] at hc

end Fuego
